import Mathlib

/-!
Verification development for the robots-factory trading simulator.

The data model is embedded from `src/types.hpp`; the time-based indicators
are embedded from `src/indicators/time.cpp`.  The trading state machine
(`Trader`) is declared in `src/trader.hpp` but its translation unit
(`trader.cpp`) is not part of the source tree available here, so its
operations are modelled from the specification (each such definition carries
a doc comment starting with `Modelled from the spec:`).

Machine doubles are modelled as rationals (`ℚ`); C++ `int` fields are
modelled as `ℤ`; `time_t` as `ℕ` (seconds since the Unix epoch);
`std::optional<T>` as `Option T`.
-/

namespace RF

/-- Enum `PositionSide` from `src/types.hpp` (LONG or SHORT). -/
inductive PositionSide
  | LONG
  | SHORT
deriving DecidableEq, Repr

/-- Enum `OrderType` from `src/types.hpp` (TAKE_PROFIT or STOP_LOSS). -/
inductive OrderType
  | TAKE_PROFIT
  | STOP_LOSS
deriving DecidableEq, Repr

/-- Enum `OrderSide` from `src/types.hpp` (LONG or SHORT). -/
inductive OrderSide
  | LONG
  | SHORT
deriving DecidableEq, Repr

/-- Struct `Candle` from `src/types.hpp`.  The field `open` of the C++
struct is renamed `open_` because `open` is a Lean keyword. -/
structure Candle where
  date : ℕ
  open_ : ℚ
  high : ℚ
  low : ℚ
  close : ℚ
  tick_volume : ℚ
  volume : ℚ
  spread : ℚ
deriving DecidableEq, Repr

/-- Struct `Position` from `src/types.hpp`. -/
structure Position where
  side : PositionSide
  size : ℚ
  entry_price : ℚ
  entry_date : ℕ
  pnl : ℚ
deriving DecidableEq, Repr

/-- Struct `Order` from `src/types.hpp`. -/
structure Order where
  side : OrderSide
  type : OrderType
  price : ℚ
deriving DecidableEq, Repr

/-- Struct `Trade` from `src/types.hpp`. -/
structure Trade where
  side : PositionSide
  entry_date : ℕ
  exit_date : ℕ
  entry_price : ℚ
  exit_price : ℚ
  size : ℚ
  pnl : ℚ
  pnl_percent : ℚ
  pnl_net_percent : ℚ
  fees : ℚ
  duration : ℤ
  closed : Bool
deriving DecidableEq, Repr

/-- Modelled from the spec: `time_t_to_tm(...).tm_hour` used by
`src/indicators/time.cpp` (the helper `utils/date_conversion.hpp` is not in
the available sources).  Standard civil-time conversion of a Unix timestamp
(UTC): the hour of day in `0..23`. -/
def tm_hour (date : ℕ) : ℕ :=
  date / 3600 % 24

/-- Modelled from the spec: `time_t_to_tm(...).tm_wday` used by
`src/indicators/time.cpp`.  Standard civil-time conversion of a Unix
timestamp (UTC): the weekday in `0..6` with Sunday = 0 (the Unix epoch,
1970-01-01, was a Thursday = 4). -/
def tm_wday (date : ℕ) : ℕ :=
  (date / 86400 + 4) % 7

/-- The session membership test of `MarketSession::calculate` in
`src/indicators/time.cpp`: the candle hour lies in the fixed inclusive range
of the zone; any zone other than `london`, `new-york`, `tokyo` leaves
`is_market_session` at its initial `false`. -/
def in_market_session (zone : String) (h : ℕ) : Bool :=
  if zone = "london" then decide (8 ≤ h) && decide (h ≤ 12)
  else if zone = "new-york" then decide (14 ≤ h) && decide (h ≤ 20)
  else if zone = "tokyo" then decide (2 ≤ h) && decide (h ≤ 8)
  else false

/-- `MarketSession::calculate` from `src/indicators/time.cpp` (with the
default `offset = 0` and `normalize_data = false`, under which the base
`Indicator::calculate` wrapper — whose translation unit is not in the
available sources — returns the raw values unchanged, as asserted by
`src/indicators/tests/indicator_test.cpp`). -/
def marketSession_calculate (zone : String) (candles : List Candle) : List ℚ :=
  candles.map (fun c => if in_market_session zone (tm_hour c.date) then 1 else 0)

/-- The `attempt_day` computation of `WeekDay::calculate` in
`src/indicators/time.cpp`: the target weekday index, left at its initial `0`
(Sunday) for any string outside the seven recognized lowercase names. -/
def weekday_attempt_day (day : String) : ℕ :=
  if day = "sunday" then 0
  else if day = "monday" then 1
  else if day = "tuesday" then 2
  else if day = "wednesday" then 3
  else if day = "thursday" then 4
  else if day = "friday" then 5
  else if day = "saturday" then 6
  else 0

/-- `WeekDay::calculate` from `src/indicators/time.cpp` (default `offset = 0`,
`normalize_data = false`; see `marketSession_calculate` for the wrapper). -/
def weekDay_calculate (day : String) (candles : List Candle) : List ℚ :=
  candles.map (fun c => if tm_wday c.date = weekday_attempt_day day then 1 else 0)

/-- Enum `TypeTakeProfitStopLoss` from `src/types.hpp`. -/
inductive TypeTakeProfitStopLoss
  | POINTS
  | PERCENT
  | EXTREMUM
  | ATR
deriving DecidableEq, Repr

/-- Enum `TypeTrailingStopLoss` from `src/types.hpp`. -/
inductive TypeTrailingStopLoss
  | POINTS
  | PERCENT
deriving DecidableEq, Repr

/-- Struct `TakeProfitStopLossConfig` from `src/types.hpp`. -/
structure TakeProfitStopLossConfig where
  type_stop_loss : TypeTakeProfitStopLoss
  stop_loss_in_points : Option ℤ
  stop_loss_in_percent : Option ℚ
  stop_loss_extremum_period : Option ℤ
  stop_loss_atr_period : Option ℤ
  stop_loss_atr_multiplier : Option ℚ
  type_take_profit : TypeTakeProfitStopLoss
  take_profit_in_points : Option ℤ
  take_profit_in_percent : Option ℚ
  take_profit_extremum_period : Option ℤ
  take_profit_atr_period : Option ℤ
  take_profit_atr_multiplier : Option ℚ
deriving DecidableEq, Repr

/-- Struct `TrailingStopLossConfig` from `src/types.hpp`. -/
structure TrailingStopLossConfig where
  type : TypeTrailingStopLoss
  activation_level_in_points : Option ℤ
  activation_level_in_percent : Option ℚ
  trailing_stop_loss_in_points : Option ℤ
  trailing_stop_loss_in_percent : Option ℚ
deriving DecidableEq, Repr

/-- Struct `TradingSchedule` from `src/types.hpp`: for each weekday, one
boolean per hour of day saying whether trading is allowed. -/
structure TradingSchedule where
  monday : List Bool
  tuesday : List Bool
  wednesday : List Bool
  thursday : List Bool
  friday : List Bool
  saturday : List Bool
  sunday : List Bool
deriving DecidableEq, Repr

/-- Struct `StrategyConfig` from `src/types.hpp` (the `timeframe` field is
omitted: the embedding keeps a single candle series, that of the strategy
timeframe). -/
structure StrategyConfig where
  risk_per_trade : ℚ
  maximum_trades_per_day : Option ℤ
  maximum_spread : Option ℚ
  minimum_trade_duration : Option ℤ
  maximum_trade_duration : Option ℤ
  minimum_duration_before_next_trade : Option ℤ
  can_close_trade : Option Bool
  can_open_long_trade : Option Bool
  can_open_short_trade : Option Bool
  take_profit_stop_loss_config : TakeProfitStopLossConfig
  trading_schedule : Option TradingSchedule
  trailing_stop_loss_config : Option TrailingStopLossConfig
deriving DecidableEq, Repr

/-- Struct `GeneralConfig` from `src/types.hpp` (string metadata omitted). -/
structure GeneralConfig where
  initial_balance : ℚ
  leverage : ℤ
deriving DecidableEq, Repr

/-- Struct `TrainingConfig` from `src/types.hpp` (restricted to the fields
the trading state machine reads: the death thresholds and the decision
threshold). -/
structure TrainingConfig where
  bad_trader_threshold : Option ℚ
  inactive_trader_threshold : Option ℚ
  decision_threshold : Option ℚ
deriving DecidableEq, Repr

/-- Struct `Config` from `src/types.hpp` (the NEAT and evaluation parts are
external to the trading state machine). -/
structure Config where
  general : GeneralConfig
  strategy : StrategyConfig
  training : TrainingConfig
deriving DecidableEq, Repr

/-- Struct `SymbolInfo` from `src/types.hpp` (restricted to the numeric
fields the trading state machine reads). -/
structure SymbolInfo where
  point_value : ℚ
  contract_size : ℤ
  commission_per_lot : ℚ
deriving DecidableEq, Repr

/-! ## Risk engine

Modelled from the spec (§4.1): the translation unit computing stop-loss and
take-profit trigger prices is not in the available sources; only its
configuration type (`TakeProfitStopLossConfig` in `src/types.hpp`) is. -/

/-- Lowest low of a non-empty candle window (EXTREMUM stop for a long). -/
def lowest_low (c : Candle) (rest : List Candle) : ℚ :=
  rest.foldl (fun m x => min m x.low) c.low

/-- Highest high of a non-empty candle window (EXTREMUM stop for a short). -/
def highest_high (c : Candle) (rest : List Candle) : ℚ :=
  rest.foldl (fun m x => max m x.high) c.high

/-- True ranges of a candle series: for each candle after the first,
`max (high - low) (max |high - prev_close| |low - prev_close|)`. -/
def true_ranges (candles : List Candle) : List ℚ :=
  match candles with
  | [] => []
  | c :: rest =>
    List.zipWith
      (fun prev cur =>
        max (cur.high - cur.low) (max |cur.high - prev.close| |cur.low - prev.close|))
      (c :: rest) rest

/-- Modelled from the spec: average true range over the last `period` true
ranges, degraded to the maximum available window when the history is
shorter (§4.1 edge-case policy). -/
def atr (candles : List Candle) (period : ℕ) : ℚ :=
  let trs := true_ranges candles
  let window := trs.drop (trs.length - min period trs.length)
  if window.length = 0 then 0 else window.sum / (window.length : ℚ)

/-- The last `min period candles.length` candles: the trailing lookback
window, degraded to the whole history when `period` exceeds it. -/
def lookback_window (candles : List Candle) (period : ℕ) : List Candle :=
  candles.drop (candles.length - min period candles.length)

/-- Modelled from the spec (§4.1): the stop-loss trigger price for a
position of side `side` opened at `entry`, given the config and the recent
candle history.  Returns the price together with a `provisional` flag which
is `true` exactly when a configured lookback/period exceeds the available
history (the caller must not trigger the rule on a provisional result).
POINTS: `entry ∓ points × point_value`; PERCENT: `entry × (1 ∓ percent)`;
EXTREMUM: lowest-low / highest-high over the lookback window;
ATR: `entry ∓ ATR(period) × multiplier`. -/
def calculate_stop_loss (cfg : TakeProfitStopLossConfig) (si : SymbolInfo)
    (side : PositionSide) (entry : ℚ) (candles : List Candle) : ℚ × Bool :=
  match cfg.type_stop_loss with
  | .POINTS =>
    let pts : ℚ := ((cfg.stop_loss_in_points.getD 0 : ℤ) : ℚ)
    (match side with
     | .LONG => entry - pts * si.point_value
     | .SHORT => entry + pts * si.point_value, false)
  | .PERCENT =>
    let p := cfg.stop_loss_in_percent.getD 0
    (match side with
     | .LONG => entry * (1 - p)
     | .SHORT => entry * (1 + p), false)
  | .EXTREMUM =>
    let period := (cfg.stop_loss_extremum_period.getD 0).toNat
    match lookback_window candles period with
    | [] => (entry, true)
    | c :: rest =>
      (match side with
       | .LONG => lowest_low c rest
       | .SHORT => highest_high c rest,
       decide ((candles.length : ℤ) < cfg.stop_loss_extremum_period.getD 0))
  | .ATR =>
    let period := (cfg.stop_loss_atr_period.getD 0).toNat
    let mult := cfg.stop_loss_atr_multiplier.getD 0
    (match side with
     | .LONG => entry - atr candles period * mult
     | .SHORT => entry + atr candles period * mult,
     decide ((candles.length : ℤ) < cfg.stop_loss_atr_period.getD 0))

/-- Modelled from the spec (§4.1): the take-profit trigger price, mirror of
`calculate_stop_loss` with the direction flipped (take-profit on a long is
above entry; the EXTREMUM target for a long is the highest high). -/
def calculate_take_profit (cfg : TakeProfitStopLossConfig) (si : SymbolInfo)
    (side : PositionSide) (entry : ℚ) (candles : List Candle) : ℚ × Bool :=
  match cfg.type_take_profit with
  | .POINTS =>
    let pts : ℚ := ((cfg.take_profit_in_points.getD 0 : ℤ) : ℚ)
    (match side with
     | .LONG => entry + pts * si.point_value
     | .SHORT => entry - pts * si.point_value, false)
  | .PERCENT =>
    let p := cfg.take_profit_in_percent.getD 0
    (match side with
     | .LONG => entry * (1 + p)
     | .SHORT => entry * (1 - p), false)
  | .EXTREMUM =>
    let period := (cfg.take_profit_extremum_period.getD 0).toNat
    match lookback_window candles period with
    | [] => (entry, true)
    | c :: rest =>
      (match side with
       | .LONG => highest_high c rest
       | .SHORT => lowest_low c rest,
       decide ((candles.length : ℤ) < cfg.take_profit_extremum_period.getD 0))
  | .ATR =>
    let period := (cfg.take_profit_atr_period.getD 0).toNat
    let mult := cfg.take_profit_atr_multiplier.getD 0
    (match side with
     | .LONG => entry + atr candles period * mult
     | .SHORT => entry - atr candles period * mult,
     decide ((candles.length : ℤ) < cfg.take_profit_atr_period.getD 0))

/-- A stop order (for a long) triggers when the bar's low reaches the
trigger price; for a short, when the bar's high reaches it (spec §4.2). -/
def stop_hit (side : PositionSide) (trigger high low : ℚ) : Bool :=
  match side with
  | .LONG => decide (low ≤ trigger)
  | .SHORT => decide (trigger ≤ high)

/-- A take-profit order uses the opposite comparison of `stop_hit`
(spec §4.2). -/
def tp_hit (side : PositionSide) (trigger high low : ℚ) : Bool :=
  match side with
  | .LONG => decide (trigger ≤ high)
  | .SHORT => decide (low ≤ trigger)

/-- Modelled from the spec (§4.1 edge-case policy): the caller-side rule
application for the stop-loss computation — the rule triggers only when the
result is not provisional and the bar crossed the computed trigger price
("insufficient history" is treated as "do not trigger this rule yet"). -/
def stop_rule_triggers (cfg : TakeProfitStopLossConfig) (si : SymbolInfo)
    (side : PositionSide) (entry : ℚ) (candles : List Candle)
    (high low : ℚ) : Bool :=
  let r := calculate_stop_loss cfg si side entry candles
  !r.2 && stop_hit side r.1 high low

/-- Modelled from the spec (§4.1 edge-case policy): the caller-side rule
application for the take-profit computation, mirror of
`stop_rule_triggers` — the rule triggers only when the result is not
provisional and the bar crossed the computed trigger price. -/
def tp_rule_triggers (cfg : TakeProfitStopLossConfig) (si : SymbolInfo)
    (side : PositionSide) (entry : ℚ) (candles : List Candle)
    (high low : ℚ) : Bool :=
  let r := calculate_take_profit cfg si side entry candles
  !r.2 && tp_hit side r.1 high low

/-! ## Trailing stop (spec §4.1) -/

/-- Modelled from the spec: the trailing stop activates only once the
unrealized profit of the position exceeds the configured activation level
(in points or percent, per config). -/
def trailing_activated (tcfg : TrailingStopLossConfig) (si : SymbolInfo)
    (pos : Position) (price : ℚ) : Bool :=
  let profit :=
    match pos.side with
    | .LONG => price - pos.entry_price
    | .SHORT => pos.entry_price - price
  match tcfg.type with
  | .POINTS =>
    decide (((tcfg.activation_level_in_points.getD 0 : ℤ) : ℚ) * si.point_value < profit)
  | .PERCENT =>
    decide (tcfg.activation_level_in_percent.getD 0 * pos.entry_price < profit)

/-- Modelled from the spec: the candidate trailing stop price recomputed
from the current market price and the configured trailing distance. -/
def trailing_candidate (tcfg : TrailingStopLossConfig) (si : SymbolInfo)
    (side : PositionSide) (price : ℚ) : ℚ :=
  match tcfg.type with
  | .POINTS =>
    let d : ℚ := ((tcfg.trailing_stop_loss_in_points.getD 0 : ℤ) : ℚ) * si.point_value
    (match side with
     | .LONG => price - d
     | .SHORT => price + d)
  | .PERCENT =>
    let p := tcfg.trailing_stop_loss_in_percent.getD 0
    (match side with
     | .LONG => price * (1 - p)
     | .SHORT => price * (1 + p))

/-- Modelled from the spec: the new stop-loss trigger price after one
trailing-stop update.  If the trailing stop is not yet activated the stored
price is kept; once activated, the stored price is replaced by the
candidate only when the candidate is strictly more favorable (higher for a
long, lower for a short) — the stop never retreats. -/
def new_sl_price (tcfg : TrailingStopLossConfig) (si : SymbolInfo)
    (pos : Position) (price old : ℚ) : ℚ :=
  if trailing_activated tcfg si pos price then
    let cand := trailing_candidate tcfg si pos.side price
    match pos.side with
    | .LONG => if old < cand then cand else old
    | .SHORT => if cand < old then cand else old
  else old

/-! ## Position & Order Ledger and Simulation Driver

The state fields mirror the members of `class Trader` in `src/trader.hpp`;
the operations are modelled from the specification (§4.2, §4.3) because
`trader.cpp` is not in the available sources.  `genome_calls` counts the
invocations of the external decision function (`look`/`think` in
`src/trader.hpp`), so that "the driver never again invokes the decision
function" is a statement about the state. -/

/-- The trader state: the members of `class Trader` in `src/trader.hpp`
relevant to the trading state machine, with `candles` restricted to the
strategy-timeframe series and `current_spread` the spread of the current
bar. -/
structure Trader where
  config : Config
  symbol_info : SymbolInfo
  candles : List Candle
  current_base_currency_conversion_rate : ℚ
  current_date : ℕ
  current_spread : ℚ
  balance : ℚ
  balance_history : List ℚ
  trades_history : List Trade
  current_position : Option Position
  open_orders : List Order
  duration_in_position : ℤ
  duration_without_trade : ℤ
  nb_trades_today : ℕ
  genome_calls : ℕ
  lifespan : ℕ
  dead : Bool
deriving DecidableEq, Repr

/-- Unrealized profit and loss of a position at `price`, in account
currency: `(price - entry) × size × contract_size × conversion_rate` for a
long, negated difference for a short (spec §3, §4.2). -/
def position_pnl (si : SymbolInfo) (rate : ℚ) (pos : Position) (price : ℚ) : ℚ :=
  (match pos.side with
   | .LONG => price - pos.entry_price
   | .SHORT => pos.entry_price - price) * pos.size * (si.contract_size : ℚ) * rate

/-- Position notional: `size × entry_price × contract_size` (spec §4.2:
liquidation threshold is the notional divided by the leverage). -/
def position_notional (si : SymbolInfo) (pos : Position) : ℚ :=
  pos.size * pos.entry_price * (si.contract_size : ℚ)

/-- Modelled from the spec (§4.2): `Trader::update_position_pnl` —
recompute the open position's PnL from the current price; a no-op when
flat. -/
def update_position_pnl (price : ℚ) (t : Trader) : Trader :=
  match t.current_position with
  | none => t
  | some pos =>
    { t with
        current_position :=
          some ({ pos with pnl := position_pnl t.symbol_info t.current_base_currency_conversion_rate pos price }) }

/-- Modelled from the spec (§4.2): `Trader::close_position_by_market` —
terminate the open position at `price`: compute the realized PnL and the
linear commission (`commission_per_lot × size`, converted to account
currency), settle the balance, append the `Trade`, clear the position slot
and the pending orders as one atomic step, reset the in-position duration
and the no-trade countdown, and count the trade for the day.  A no-op when
flat. -/
def close_position_by_market (price : ℚ) (t : Trader) : Trader :=
  match t.current_position with
  | none => t
  | some pos =>
    let gross := position_pnl t.symbol_info t.current_base_currency_conversion_rate pos price
    let fees := t.symbol_info.commission_per_lot * pos.size * t.current_base_currency_conversion_rate
    let tr : Trade :=
      { side := pos.side
        entry_date := pos.entry_date
        exit_date := t.current_date
        entry_price := pos.entry_price
        exit_price := price
        size := pos.size
        pnl := gross
        pnl_percent := if t.balance = 0 then 0 else gross / t.balance * 100
        pnl_net_percent := if t.balance = 0 then 0 else (gross - fees) / t.balance * 100
        fees := fees
        duration := t.duration_in_position
        closed := true }
    { t with
        balance := t.balance + gross - fees
        trades_history := t.trades_history ++ [tr]
        current_position := none
        open_orders := []
        duration_in_position := 0
        duration_without_trade := 0
        nb_trades_today := t.nb_trades_today + 1 }

/-- Modelled from the spec (§4.2): `Trader::close_position_by_limit` — same
termination as `close_position_by_market` (both transitions OPEN → CLOSED
compute the realized PnL, append a `Trade`, clear pending orders), at the
given limit price. -/
def close_position_by_limit (price : ℚ) (t : Trader) : Trader :=
  close_position_by_market price t

/-- Modelled from the spec (§4.2): `Trader::check_open_orders` — test each
pending conditional order against the bar: a long stop triggers when
`low ≤ trigger`, a short stop when `high ≥ trigger`, take-profit uses the
opposite comparison; when both a stop and a take-profit would trigger
within the same bar the stop-loss takes priority; triggering executes
`close_position_by_market` at the trigger price.  A no-op when flat. -/
def check_open_orders (high low : ℚ) (t : Trader) : Trader :=
  match t.current_position with
  | none => t
  | some pos =>
    match t.open_orders.find? (fun o => o.type == OrderType.STOP_LOSS),
          t.open_orders.find? (fun o => o.type == OrderType.TAKE_PROFIT) with
    | some slo, some tpo =>
      if stop_hit pos.side slo.price high low then close_position_by_market slo.price t
      else if tp_hit pos.side tpo.price high low then close_position_by_market tpo.price t
      else t
    | some slo, none =>
      if stop_hit pos.side slo.price high low then close_position_by_market slo.price t else t
    | none, some tpo =>
      if tp_hit pos.side tpo.price high low then close_position_by_market tpo.price t else t
    | none, none => t

/-- The worst available price of the step for the open position: the bar
low for a long, the bar high for a short (spec §4.2, liquidation). -/
def liquidation_price (side : PositionSide) (high low : ℚ) : ℚ :=
  match side with
  | .LONG => low
  | .SHORT => high

/-- Modelled from the spec (§4.2): `Trader::check_position_liquidation` —
when the unrealized loss at the worst available price of the step reaches
the position notional divided by the leverage, force-close the position
there (`close_position_by_market` at the worst price).  Fatal to the
position, not to the run: the `dead` flag is untouched.  A no-op when
flat. -/
def check_position_liquidation (high low : ℚ) (t : Trader) : Trader :=
  match t.current_position with
  | none => t
  | some pos =>
    let worst := liquidation_price pos.side high low
    let pnl_worst := position_pnl t.symbol_info t.current_base_currency_conversion_rate pos worst
    if position_notional t.symbol_info pos / ((t.config.general.leverage : ℤ) : ℚ) ≤ -pnl_worst then
      close_position_by_market worst t
    else t

/-- Modelled from the spec (§4.2): `Trader::update_trailing_stop_loss` —
when a position is open and a trailing-stop config is present, replace the
stored stop-loss order's trigger price by `new_sl_price`; other orders are
untouched.  A no-op when flat or when no trailing stop is configured. -/
def update_trailing_stop_loss (price : ℚ) (t : Trader) : Trader :=
  match t.current_position, t.config.strategy.trailing_stop_loss_config with
  | some pos, some tcfg =>
    { t with open_orders :=
        t.open_orders.map (fun o =>
          if o.type = OrderType.STOP_LOSS then
            { o with price := new_sl_price tcfg t.symbol_info pos price o.price }
          else o) }
  | _, _ => t

/-- The closing side of an order protecting a position of side `side`. -/
def opposite_side (side : OrderSide) : OrderSide :=
  match side with
  | .LONG => .SHORT
  | .SHORT => .LONG

/-- The position side corresponding to an order side. -/
def side_of_order (side : OrderSide) : PositionSide :=
  match side with
  | .LONG => .LONG
  | .SHORT => .SHORT

/-- Modelled from the spec (§4.2): `Trader::open_position_by_market` — only
valid from FLAT (an open position makes it a no-op: opening while OPEN is
forbidden by construction).  Allocates the `Position`, records entry
price/date/size, computes and stores the initial stop-loss and take-profit
orders via the risk engine (a provisional risk computation stores no order:
"do not trigger this rule yet"), and zeroes the in-position duration. -/
def open_position_by_market (price size : ℚ) (side : OrderSide) (t : Trader) : Trader :=
  match t.current_position with
  | some _ => t
  | none =>
    let pside := side_of_order side
    let pos : Position :=
      { side := pside, size := size, entry_price := price, entry_date := t.current_date, pnl := 0 }
    let sl := calculate_stop_loss t.config.strategy.take_profit_stop_loss_config t.symbol_info pside price t.candles
    let tp := calculate_take_profit t.config.strategy.take_profit_stop_loss_config t.symbol_info pside price t.candles
    let orders :=
      (if sl.2 then [] else [{ side := opposite_side side, type := OrderType.STOP_LOSS, price := sl.1 : Order }])
      ++ (if tp.2 then [] else [{ side := opposite_side side, type := OrderType.TAKE_PROFIT, price := tp.1 : Order }])
    { t with
        current_position := some pos
        open_orders := orders
        duration_in_position := 0 }

/-- Modelled from the spec (§4.2): `Trader::close_open_orders` — remove all
pending orders. -/
def close_open_orders (t : Trader) : Trader :=
  { t with open_orders := [] }

/-- The hour row of the schedule for a weekday index (Sunday = 0). -/
def schedule_day (s : TradingSchedule) (wd : ℕ) : List Bool :=
  match wd with
  | 0 => s.sunday
  | 1 => s.monday
  | 2 => s.tuesday
  | 3 => s.wednesday
  | 4 => s.thursday
  | 5 => s.friday
  | _ => s.saturday

/-- Whether the schedule allows trading at the given weekday and hour. -/
def schedule_allows (s : TradingSchedule) (wd hour : ℕ) : Bool :=
  (schedule_day s wd).getD hour false

/-- Whether the trader's configured schedule (if any) allows trading at the
trader's current date; no schedule means always allowed. -/
def in_schedule (t : Trader) : Bool :=
  match t.config.strategy.trading_schedule with
  | some s => schedule_allows s (tm_wday t.current_date) (tm_hour t.current_date)
  | none => true

/-- Modelled from the spec (§4.3): `Trader::can_trade` — false when any of:
the daily trade limit is reached, the current spread exceeds the configured
maximum, the current weekday/hour is outside the configured schedule, or
the trader is dead. -/
def can_trade (t : Trader) : Bool :=
  !t.dead
  && !(match t.config.strategy.maximum_trades_per_day with
       | some m => decide (m ≤ (t.nb_trades_today : ℤ))
       | none => false)
  && !(match t.config.strategy.maximum_spread with
       | some ms => decide (ms < t.current_spread)
       | none => false)
  && in_schedule t

/-- Position size from the configured risk per trade:
`balance × risk_per_trade / price` (spec §6: risk-per-trade sizing). -/
def position_size (t : Trader) (price : ℚ) : ℚ :=
  if price = 0 then 0 else t.balance * t.config.strategy.risk_per_trade / price

/-- Modelled from the spec (§4.3 (e)–(f)): `Trader::trade` — translate the
decision vector into one action, returning the action code of
`src/trader.hpp` (1 = opened long, 2 = opened short, 3 = closed, 0 = hold)
together with the next state.  When `can_trade` is false the driver treats
the step as hold only: no open/close action.  Otherwise the largest
decision component wins if it reaches the decision threshold and the
corresponding `can_open_long_trade`/`can_open_short_trade`/
`can_close_trade` flag permits. -/
def trade (decisions : List ℚ) (price : ℚ) (t : Trader) : ℕ × Trader :=
  if can_trade t = false then (0, t)
  else
    let thr := t.config.training.decision_threshold.getD 0
    let dLong := decisions.getD 0 0
    let dShort := decisions.getD 1 0
    let dClose := decisions.getD 2 0
    if t.current_position.isNone ∧ t.config.strategy.can_open_long_trade.getD true
       ∧ thr ≤ dLong ∧ dShort < dLong ∧ dClose < dLong then
      (1, open_position_by_market price (position_size t price) OrderSide.LONG t)
    else if t.current_position.isNone ∧ t.config.strategy.can_open_short_trade.getD true
       ∧ thr ≤ dShort ∧ dLong < dShort ∧ dClose < dShort then
      (2, open_position_by_market price (position_size t price) OrderSide.SHORT t)
    else if t.current_position.isSome ∧ t.config.strategy.can_close_trade.getD true
       ∧ thr ≤ dClose ∧ dLong < dClose ∧ dShort < dClose then
      (3, close_position_by_market price t)
    else (0, t)

/-- One step's external input: the new timestamp, the current bar of the
strategy timeframe, and the decision function's output for this step. -/
structure StepInput where
  date : ℕ
  candle : Candle
  decisions : List ℚ
deriving Repr

/-- Modelled from the spec (§4.3 (a)): detect a calendar-day rollover and
reset the daily trade counter. -/
def new_day_reset (inp : StepInput) (t : Trader) : Trader :=
  if inp.date / 86400 ≠ t.current_date / 86400 then { t with nb_trades_today := 0 } else t

/-- Modelled from the spec (§4.3 (b)): advance the current time and the
active market snapshot. -/
def advance_snapshot (inp : StepInput) (t : Trader) : Trader :=
  { t with
      current_date := inp.date
      current_spread := inp.candle.spread
      candles := t.candles ++ [inp.candle] }

/-- Modelled from the spec (§4.3 (c)): when a position is open, increment
the in-position duration then run `update_position_pnl`,
`update_trailing_stop_loss`, `check_open_orders`,
`check_position_liquidation` in that order; when flat, advance the
no-trade countdown. -/
def manage_position (inp : StepInput) (t : Trader) : Trader :=
  if t.current_position.isSome then
    check_position_liquidation inp.candle.high inp.candle.low
      (check_open_orders inp.candle.high inp.candle.low
        (update_trailing_stop_loss inp.candle.close
          (update_position_pnl inp.candle.close
            { t with duration_in_position := t.duration_in_position + 1 })))
  else { t with duration_without_trade := t.duration_without_trade + 1 }

/-- Modelled from the spec (§4.3 (d)): enforce the configured rest-day /
schedule rule by force-closing an open position ahead of a non-trading
period. -/
def forced_schedule_close (inp : StepInput) (t : Trader) : Trader :=
  if t.current_position.isSome ∧ in_schedule t = false then
    close_position_by_market inp.candle.close t
  else t

/-- Modelled from the spec (§4.3 (e)–(f)): when FLAT and `can_trade`
permits, build the vision, invoke the decision function (counted by
`genome_calls`) and apply the resulting action via `trade`; otherwise
hold. -/
def decision_phase (inp : StepInput) (t : Trader) : Trader :=
  if t.current_position.isNone ∧ can_trade t = true then
    (trade inp.decisions inp.candle.close { t with genome_calls := t.genome_calls + 1 }).2
  else t

/-- Modelled from the spec (§4.3 (g)): increment the lifespan and evaluate
the bad-trader / inactive-trader death conditions, setting `dead` when
met. -/
def death_check (t : Trader) : Trader :=
  let t1 := { t with lifespan := t.lifespan + 1 }
  if (match t1.config.training.bad_trader_threshold with
      | some thr => decide (t1.balance < thr)
      | none => false)
     || (match t1.config.training.inactive_trader_threshold with
         | some lim => decide (lim < (t1.duration_without_trade : ℚ))
         | none => false) then
    { t1 with dead := true }
  else t1

/-- Modelled from the spec (§4.3 (h)): append the current balance to the
balance history (one sample per step, append-only, last in the step). -/
def record_balance (t : Trader) : Trader :=
  { t with balance_history := t.balance_history ++ [t.balance] }

/-- Modelled from the spec (§4.3): one simulation step, phases (a)–(h) in
order. -/
def step (inp : StepInput) (t : Trader) : Trader :=
  record_balance
    (death_check
      (decision_phase inp
        (forced_schedule_close inp
          (manage_position inp
            (advance_snapshot inp
              (new_day_reset inp t))))))

/-- A whole simulated run: the steps folded in sequence over an initial
trader state. -/
def run (t : Trader) (inputs : List StepInput) : Trader :=
  inputs.foldl (fun s i => step i s) t


/-! ## Concrete example instances (used by the example theorems below) -/

/-- A concrete take-profit/stop-loss config: fixed POINTS on both sides. -/
def demo_tps_cfg : TakeProfitStopLossConfig :=
  { type_stop_loss := TypeTakeProfitStopLoss.POINTS
    stop_loss_in_points := some 5
    stop_loss_in_percent := none
    stop_loss_extremum_period := none
    stop_loss_atr_period := none
    stop_loss_atr_multiplier := none
    type_take_profit := TypeTakeProfitStopLoss.POINTS
    take_profit_in_points := some 10
    take_profit_in_percent := none
    take_profit_extremum_period := none
    take_profit_atr_period := none
    take_profit_atr_multiplier := none }

/-- A concrete EXTREMUM stop-loss config with a 5-candle lookback. -/
def demo_extremum_cfg : TakeProfitStopLossConfig :=
  { demo_tps_cfg with
      type_stop_loss := TypeTakeProfitStopLoss.EXTREMUM
      stop_loss_extremum_period := some 5 }

/-- A concrete config with EXTREMUM on the take-profit side as well (a
5-candle lookback on both sides). -/
def demo_extremum_tp_cfg : TakeProfitStopLossConfig :=
  { demo_extremum_cfg with
      type_take_profit := TypeTakeProfitStopLoss.EXTREMUM
      take_profit_extremum_period := some 5 }

/-- A concrete trailing-stop config: activate at 2 points, trail by 3. -/
def demo_trailing_cfg : TrailingStopLossConfig :=
  { type := TypeTrailingStopLoss.POINTS
    activation_level_in_points := some 2
    activation_level_in_percent := none
    trailing_stop_loss_in_points := some 3
    trailing_stop_loss_in_percent := none }

/-- A concrete run configuration. -/
def demo_config : Config :=
  { general := { initial_balance := 1000, leverage := 10 }
    strategy :=
      { risk_per_trade := 1 / 100
        maximum_trades_per_day := some 2
        maximum_spread := some 3
        minimum_trade_duration := none
        maximum_trade_duration := none
        minimum_duration_before_next_trade := none
        can_close_trade := some true
        can_open_long_trade := some true
        can_open_short_trade := some true
        take_profit_stop_loss_config := demo_tps_cfg
        trading_schedule := none
        trailing_stop_loss_config := some demo_trailing_cfg }
    training :=
      { bad_trader_threshold := none
        inactive_trader_threshold := none
        decision_threshold := some (1 / 2) } }

/-- A concrete symbol. -/
def demo_symbol : SymbolInfo :=
  { point_value := 1, contract_size := 1, commission_per_lot := 0 }

/-- A concrete open long position: size 1 at entry 100. -/
def demo_position : Position :=
  { side := PositionSide.LONG, size := 1, entry_price := 100, entry_date := 0, pnl := 0 }

/-- A concrete candle (10:00 UTC). -/
def demo_candle : Candle :=
  { date := 36000, open_ := 100, high := 101, low := 99, close := 100
    tick_volume := 0, volume := 0, spread := 1 }

/-- A concrete trader holding `demo_position` with a stop at 95 and a
take-profit at 110. -/
def demo_trader : Trader :=
  { config := demo_config
    symbol_info := demo_symbol
    candles := []
    current_base_currency_conversion_rate := 1
    current_date := 3600
    current_spread := 1
    balance := 1000
    balance_history := []
    trades_history := []
    current_position := some demo_position
    open_orders :=
      [ { side := OrderSide.SHORT, type := OrderType.STOP_LOSS, price := 95 }
      , { side := OrderSide.SHORT, type := OrderType.TAKE_PROFIT, price := 110 } ]
    duration_in_position := 0
    duration_without_trade := 0
    nb_trades_today := 0
    genome_calls := 0
    lifespan := 0
    dead := false }

/-- The demo trader having already reached its daily trade limit. -/
def demo_trader_limit : Trader :=
  { demo_trader with nb_trades_today := 2 }

/-- The demo trader with the terminal `dead` flag set. -/
def demo_dead_trader : Trader :=
  { demo_trader with dead := true }

/-- A concrete step input. -/
def demo_input : StepInput :=
  { date := 36000, candle := demo_candle, decisions := [0, 0, 0] }

/-! ## Frame lemmas: which fields each operation leaves untouched -/

@[simp] theorem cpm_balance_history (p : ℚ) (t : Trader) :
    (close_position_by_market p t).balance_history = t.balance_history := by
  unfold close_position_by_market; split <;> rfl

@[simp] theorem cpm_dead (p : ℚ) (t : Trader) :
    (close_position_by_market p t).dead = t.dead := by
  unfold close_position_by_market; split <;> rfl

@[simp] theorem cpm_genome_calls (p : ℚ) (t : Trader) :
    (close_position_by_market p t).genome_calls = t.genome_calls := by
  unfold close_position_by_market; split <;> rfl

@[simp] theorem upnl_balance_history (p : ℚ) (t : Trader) :
    (update_position_pnl p t).balance_history = t.balance_history := by
  unfold update_position_pnl; split <;> rfl

@[simp] theorem upnl_dead (p : ℚ) (t : Trader) :
    (update_position_pnl p t).dead = t.dead := by
  unfold update_position_pnl; split <;> rfl

@[simp] theorem upnl_genome_calls (p : ℚ) (t : Trader) :
    (update_position_pnl p t).genome_calls = t.genome_calls := by
  unfold update_position_pnl; split <;> rfl

@[simp] theorem utsl_balance_history (p : ℚ) (t : Trader) :
    (update_trailing_stop_loss p t).balance_history = t.balance_history := by
  unfold update_trailing_stop_loss; split <;> rfl

@[simp] theorem utsl_dead (p : ℚ) (t : Trader) :
    (update_trailing_stop_loss p t).dead = t.dead := by
  unfold update_trailing_stop_loss; split <;> rfl

@[simp] theorem utsl_genome_calls (p : ℚ) (t : Trader) :
    (update_trailing_stop_loss p t).genome_calls = t.genome_calls := by
  unfold update_trailing_stop_loss; split <;> rfl

@[simp] theorem coo_balance_history (hi lo : ℚ) (t : Trader) :
    (check_open_orders hi lo t).balance_history = t.balance_history := by
  unfold check_open_orders
  split
  · rfl
  · split <;> (try split_ifs) <;> simp

@[simp] theorem coo_dead (hi lo : ℚ) (t : Trader) :
    (check_open_orders hi lo t).dead = t.dead := by
  unfold check_open_orders
  split
  · rfl
  · split <;> (try split_ifs) <;> simp

@[simp] theorem coo_genome_calls (hi lo : ℚ) (t : Trader) :
    (check_open_orders hi lo t).genome_calls = t.genome_calls := by
  unfold check_open_orders
  split
  · rfl
  · split <;> (try split_ifs) <;> simp

@[simp] theorem cpl_balance_history (hi lo : ℚ) (t : Trader) :
    (check_position_liquidation hi lo t).balance_history = t.balance_history := by
  unfold check_position_liquidation
  split
  · rfl
  · dsimp only
    split_ifs <;> simp

@[simp] theorem cpl_dead (hi lo : ℚ) (t : Trader) :
    (check_position_liquidation hi lo t).dead = t.dead := by
  unfold check_position_liquidation
  split
  · rfl
  · dsimp only
    split_ifs <;> simp

@[simp] theorem cpl_genome_calls (hi lo : ℚ) (t : Trader) :
    (check_position_liquidation hi lo t).genome_calls = t.genome_calls := by
  unfold check_position_liquidation
  split
  · rfl
  · dsimp only
    split_ifs <;> simp

@[simp] theorem opm_balance_history (p s : ℚ) (sd : OrderSide) (t : Trader) :
    (open_position_by_market p s sd t).balance_history = t.balance_history := by
  unfold open_position_by_market; split <;> rfl

@[simp] theorem opm_dead (p s : ℚ) (sd : OrderSide) (t : Trader) :
    (open_position_by_market p s sd t).dead = t.dead := by
  unfold open_position_by_market; split <;> rfl

@[simp] theorem opm_genome_calls (p s : ℚ) (sd : OrderSide) (t : Trader) :
    (open_position_by_market p s sd t).genome_calls = t.genome_calls := by
  unfold open_position_by_market; split <;> rfl

@[simp] theorem trade_balance_history (d : List ℚ) (p : ℚ) (t : Trader) :
    (trade d p t).2.balance_history = t.balance_history := by
  simp only [trade]; split_ifs <;> simp

@[simp] theorem trade_dead (d : List ℚ) (p : ℚ) (t : Trader) :
    (trade d p t).2.dead = t.dead := by
  simp only [trade]; split_ifs <;> simp

@[simp] theorem trade_genome_calls (d : List ℚ) (p : ℚ) (t : Trader) :
    (trade d p t).2.genome_calls = t.genome_calls := by
  simp only [trade]; split_ifs <;> simp

@[simp] theorem new_day_reset_balance_history (inp : StepInput) (t : Trader) :
    (new_day_reset inp t).balance_history = t.balance_history := by
  unfold new_day_reset; split <;> rfl

@[simp] theorem new_day_reset_dead (inp : StepInput) (t : Trader) :
    (new_day_reset inp t).dead = t.dead := by
  unfold new_day_reset; split <;> rfl

@[simp] theorem new_day_reset_genome_calls (inp : StepInput) (t : Trader) :
    (new_day_reset inp t).genome_calls = t.genome_calls := by
  unfold new_day_reset; split <;> rfl

@[simp] theorem advance_snapshot_balance_history (inp : StepInput) (t : Trader) :
    (advance_snapshot inp t).balance_history = t.balance_history := rfl

@[simp] theorem advance_snapshot_dead (inp : StepInput) (t : Trader) :
    (advance_snapshot inp t).dead = t.dead := rfl

@[simp] theorem advance_snapshot_genome_calls (inp : StepInput) (t : Trader) :
    (advance_snapshot inp t).genome_calls = t.genome_calls := rfl

@[simp] theorem manage_position_balance_history (inp : StepInput) (t : Trader) :
    (manage_position inp t).balance_history = t.balance_history := by
  unfold manage_position; split_ifs <;> simp

@[simp] theorem manage_position_dead (inp : StepInput) (t : Trader) :
    (manage_position inp t).dead = t.dead := by
  unfold manage_position; split_ifs <;> simp

@[simp] theorem manage_position_genome_calls (inp : StepInput) (t : Trader) :
    (manage_position inp t).genome_calls = t.genome_calls := by
  unfold manage_position; split_ifs <;> simp

@[simp] theorem forced_schedule_close_balance_history (inp : StepInput) (t : Trader) :
    (forced_schedule_close inp t).balance_history = t.balance_history := by
  unfold forced_schedule_close; split_ifs <;> simp

@[simp] theorem forced_schedule_close_dead (inp : StepInput) (t : Trader) :
    (forced_schedule_close inp t).dead = t.dead := by
  unfold forced_schedule_close; split_ifs <;> simp

@[simp] theorem forced_schedule_close_genome_calls (inp : StepInput) (t : Trader) :
    (forced_schedule_close inp t).genome_calls = t.genome_calls := by
  unfold forced_schedule_close; split_ifs <;> simp

@[simp] theorem decision_phase_balance_history (inp : StepInput) (t : Trader) :
    (decision_phase inp t).balance_history = t.balance_history := by
  unfold decision_phase; split_ifs <;> simp

@[simp] theorem decision_phase_dead (inp : StepInput) (t : Trader) :
    (decision_phase inp t).dead = t.dead := by
  unfold decision_phase; split_ifs <;> simp

@[simp] theorem death_check_balance_history (t : Trader) :
    (death_check t).balance_history = t.balance_history := by
  simp only [death_check]; split_ifs <;> rfl

@[simp] theorem death_check_genome_calls (t : Trader) :
    (death_check t).genome_calls = t.genome_calls := by
  simp only [death_check]; split_ifs <;> rfl

@[simp] theorem record_balance_dead (t : Trader) :
    (record_balance t).dead = t.dead := rfl

@[simp] theorem record_balance_genome_calls (t : Trader) :
    (record_balance t).genome_calls = t.genome_calls := rfl

@[simp] theorem record_balance_balance (t : Trader) :
    (record_balance t).balance = t.balance := rfl

theorem death_check_dead_of_dead (t : Trader) (h : t.dead = true) :
    (death_check t).dead = true := by
  simp only [death_check]; split_ifs <;> simp [h]

theorem can_trade_false_of_dead (t : Trader) (h : t.dead = true) :
    can_trade t = false := by
  unfold can_trade; simp [h]

theorem decision_phase_genome_calls_of_dead (inp : StepInput) (t : Trader)
    (h : t.dead = true) :
    (decision_phase inp t).genome_calls = t.genome_calls := by
  unfold decision_phase
  split_ifs with hg
  · exact absurd hg.2 (by simp [can_trade_false_of_dead t h])
  · rfl

theorem step_dead_of_dead (inp : StepInput) (t : Trader) (h : t.dead = true) :
    (step inp t).dead = true := by
  unfold step
  rw [record_balance_dead]
  apply death_check_dead_of_dead
  simpa using h

theorem step_genome_calls_of_dead (inp : StepInput) (t : Trader) (h : t.dead = true) :
    (step inp t).genome_calls = t.genome_calls := by
  unfold step
  rw [record_balance_genome_calls, death_check_genome_calls,
    decision_phase_genome_calls_of_dead _ _ (by simpa using h)]
  simp

theorem step_balance_history (inp : StepInput) (t : Trader) :
    (step inp t).balance_history = t.balance_history ++ [(step inp t).balance] := by
  unfold step record_balance
  simp

theorem getLast?_append_singleton {α : Type} (l : List α) (a : α) :
    (l ++ [a]).getLast? = some a := by
  rw [List.getLast?_append_cons]; rfl

theorem run_cons (t : Trader) (i : StepInput) (is : List StepInput) :
    run t (i :: is) = run (step i t) is := rfl

/-- Closing from the OPEN state clears the position slot and the pending
orders and appends exactly one `Trade`, whose exit price is the close
price, in the same atomic state transition. -/
theorem cpm_spec (p : ℚ) (t : Trader) (pos : Position)
    (h : t.current_position = some pos) :
    (close_position_by_market p t).current_position = none
    ∧ (close_position_by_market p t).open_orders = []
    ∧ ∃ tr : Trade,
        (close_position_by_market p t).trades_history = t.trades_history ++ [tr]
        ∧ tr.exit_price = p
        ∧ tr.pnl = position_pnl t.symbol_info t.current_base_currency_conversion_rate pos p
        ∧ tr.side = pos.side ∧ tr.size = pos.size ∧ tr.entry_price = pos.entry_price := by
  unfold close_position_by_market
  simp only [h]
  exact ⟨by trivial, by trivial, _, rfl, rfl, rfl, rfl, rfl, rfl⟩

theorem cpm_flat (p : ℚ) (t : Trader) (h : t.current_position = none) :
    close_position_by_market p t = t := by
  unfold close_position_by_market
  simp only [h]

/-- C1: when both the pending stop-loss and the pending take-profit order
of the open position would trigger on the same bar, `check_open_orders`
closes the position by market at the stop-loss trigger price (stop-loss
priority), and the resulting `Trade`'s exit price equals the stop-loss
trigger price. -/
theorem claim_C1_stop_loss_priority
    (t : Trader) (pos : Position) (slo tpo : Order) (high low : ℚ)
    (hp : t.current_position = some pos)
    (hsl : t.open_orders.find? (fun o => o.type == OrderType.STOP_LOSS) = some slo)
    (htp : t.open_orders.find? (fun o => o.type == OrderType.TAKE_PROFIT) = some tpo)
    (hs : stop_hit pos.side slo.price high low = true)
    (_ht : tp_hit pos.side tpo.price high low = true) :
    check_open_orders high low t = close_position_by_market slo.price t
    ∧ ∃ tr : Trade,
        (check_open_orders high low t).trades_history = t.trades_history ++ [tr]
        ∧ tr.exit_price = slo.price
        ∧ (check_open_orders high low t).current_position = none := by
  have he : check_open_orders high low t = close_position_by_market slo.price t := by
    unfold check_open_orders
    simp only [hp, hsl, htp, hs, if_true]
  refine ⟨he, ?_⟩
  obtain ⟨h1, _, tr, h3, h4, _⟩ := cpm_spec slo.price t pos hp
  exact ⟨tr, by rw [he, h3], h4, by rw [he, h1]⟩

/-- C2: the ledger owns at most one position: `open_position_by_market` is
a rejected no-op unless the state is FLAT (and from FLAT it opens a
position without appending any `Trade`); every close path — market close,
limit close, order trigger, liquidation — appends exactly one `Trade` and
clears the position slot in the same atomic step, and no close path does
anything from the FLAT state. -/
theorem claim_C2_single_position_atomic (t : Trader) :
    (∀ pos, t.current_position = some pos →
      (∀ price size side, open_position_by_market price size side t = t)
      ∧ (∀ price, (close_position_by_market price t).current_position = none
          ∧ (close_position_by_market price t).trades_history.length = t.trades_history.length + 1)
      ∧ (∀ price, (close_position_by_limit price t).current_position = none
          ∧ (close_position_by_limit price t).trades_history.length = t.trades_history.length + 1)
      ∧ (∀ high low, check_position_liquidation high low t = t
          ∨ ((check_position_liquidation high low t).current_position = none
             ∧ (check_position_liquidation high low t).trades_history.length = t.trades_history.length + 1))
      ∧ (∀ high low, check_open_orders high low t = t
          ∨ ((check_open_orders high low t).current_position = none
             ∧ (check_open_orders high low t).trades_history.length = t.trades_history.length + 1)))
    ∧ (t.current_position = none →
      (∀ price size side,
        (open_position_by_market price size side t).current_position.isSome = true
        ∧ (open_position_by_market price size side t).trades_history = t.trades_history)
      ∧ (∀ price, close_position_by_market price t = t)
      ∧ (∀ price, close_position_by_limit price t = t)
      ∧ (∀ high low, check_position_liquidation high low t = t)
      ∧ (∀ high low, check_open_orders high low t = t)) := by
  constructor
  · intro pos hp
    have hclose : ∀ price : ℚ,
        (close_position_by_market price t).current_position = none
        ∧ (close_position_by_market price t).trades_history.length = t.trades_history.length + 1 := by
      intro price
      obtain ⟨h1, _, tr, h3, _⟩ := cpm_spec price t pos hp
      exact ⟨h1, by rw [h3]; simp⟩
    refine ⟨?_, hclose, hclose, ?_, ?_⟩
    · intro price size side
      unfold open_position_by_market
      simp only [hp]
    · intro high low
      unfold check_position_liquidation
      simp only [hp]
      split_ifs
      · exact Or.inr (hclose _)
      · exact Or.inl rfl
    · intro high low
      unfold check_open_orders
      simp only [hp]
      rcases hso : t.open_orders.find? (fun o => o.type == OrderType.STOP_LOSS) with _ | slo <;>
        rcases hto : t.open_orders.find? (fun o => o.type == OrderType.TAKE_PROFIT) with _ | tpo <;>
        simp only [hso, hto] <;> (try split_ifs)
      all_goals first
        | exact Or.inl rfl
        | exact Or.inl trivial
        | exact Or.inr (hclose _)
  · intro hp
    have hclose : ∀ price : ℚ, close_position_by_market price t = t := fun p => cpm_flat p t hp
    refine ⟨?_, hclose, hclose, ?_, ?_⟩
    · intro price size side
      unfold open_position_by_market
      simp only [hp]
      exact ⟨by trivial, by trivial⟩
    · intro high low
      unfold check_position_liquidation
      simp only [hp]
    · intro high low
      unfold check_open_orders
      simp only [hp]

/-- C5: when the unrealized loss at the worst available price of the step
reaches the position notional divided by the leverage,
`check_position_liquidation` force-closes at that worst price; the
resulting `Trade` has `pnl ≤ 0`, the position slot is cleared, all pending
orders are removed, and the `dead` flag is untouched (fatal to the
position, not to the run). -/
theorem claim_C5_liquidation
    (t : Trader) (pos : Position) (high low : ℚ)
    (hp : t.current_position = some pos)
    (hn : 0 ≤ position_notional t.symbol_info pos)
    (hlev : (0 : ℤ) ≤ t.config.general.leverage)
    (htrig : position_notional t.symbol_info pos / ((t.config.general.leverage : ℤ) : ℚ)
        ≤ -(position_pnl t.symbol_info t.current_base_currency_conversion_rate pos
              (liquidation_price pos.side high low))) :
    (check_position_liquidation high low t).current_position = none
    ∧ (check_position_liquidation high low t).open_orders = []
    ∧ (check_position_liquidation high low t).dead = t.dead
    ∧ ∃ tr : Trade,
        (check_position_liquidation high low t).trades_history = t.trades_history ++ [tr]
        ∧ tr.exit_price = liquidation_price pos.side high low
        ∧ tr.pnl ≤ 0 := by
  have he : check_position_liquidation high low t
      = close_position_by_market (liquidation_price pos.side high low) t := by
    unfold check_position_liquidation
    simp only [hp]
    rw [if_pos htrig]
  obtain ⟨h1, h2, tr, h3, h4, h5, _⟩ := cpm_spec (liquidation_price pos.side high low) t pos hp
  have hlevq : (0 : ℚ) ≤ ((t.config.general.leverage : ℤ) : ℚ) := by exact_mod_cast hlev
  have hdiv : (0 : ℚ) ≤ position_notional t.symbol_info pos / ((t.config.general.leverage : ℤ) : ℚ) :=
    div_nonneg hn hlevq
  have hpnl : tr.pnl ≤ 0 := by rw [h5]; linarith
  exact ⟨by rw [he, h1], by rw [he, h2], by rw [he]; simp,
    tr, by rw [he, h3], h4, hpnl⟩

theorem new_sl_price_of_inactive (tcfg : TrailingStopLossConfig) (si : SymbolInfo)
    (pos : Position) (price old : ℚ)
    (h : trailing_activated tcfg si pos price = false) :
    new_sl_price tcfg si pos price old = old := by
  unfold new_sl_price
  simp [h]

theorem new_sl_price_mono_long (tcfg : TrailingStopLossConfig) (si : SymbolInfo)
    (pos : Position) (price old : ℚ) (h : pos.side = PositionSide.LONG) :
    old ≤ new_sl_price tcfg si pos price old := by
  unfold new_sl_price
  simp only [h]
  split_ifs with h1 h2
  · exact le_of_lt h2
  · exact le_refl old
  · exact le_refl old

theorem new_sl_price_mono_short (tcfg : TrailingStopLossConfig) (si : SymbolInfo)
    (pos : Position) (price old : ℚ) (h : pos.side = PositionSide.SHORT) :
    new_sl_price tcfg si pos price old ≤ old := by
  unfold new_sl_price
  simp only [h]
  split_ifs with h1 h2
  · exact le_of_lt h2
  · exact le_refl old
  · exact le_refl old

/-- C4: the trailing stop only begins adjusting once the unrealized profit
exceeds the configured activation level (below it the order list is
unchanged), and `update_trailing_stop_loss` never moves a stored stop-loss
trigger price in the unfavorable direction: order-by-order, the stop price
is non-decreasing for a long position and non-increasing for a short one,
while take-profit orders are untouched. -/
theorem claim_C4_trailing_stop_monotone
    (t : Trader) (price : ℚ) (pos : Position) (tcfg : TrailingStopLossConfig)
    (hp : t.current_position = some pos)
    (hc : t.config.strategy.trailing_stop_loss_config = some tcfg) :
    (trailing_activated tcfg t.symbol_info pos price = false →
        (update_trailing_stop_loss price t).open_orders = t.open_orders)
    ∧ List.Forall₂ (fun o o' : Order =>
        o'.side = o.side ∧ o'.type = o.type
        ∧ (o.type = OrderType.STOP_LOSS →
            (pos.side = PositionSide.LONG → o.price ≤ o'.price)
            ∧ (pos.side = PositionSide.SHORT → o'.price ≤ o.price))
        ∧ (o.type = OrderType.TAKE_PROFIT → o' = o))
      t.open_orders (update_trailing_stop_loss price t).open_orders := by
  have hu : (update_trailing_stop_loss price t).open_orders
      = t.open_orders.map (fun o =>
          if o.type = OrderType.STOP_LOSS then
            { o with price := new_sl_price tcfg t.symbol_info pos price o.price }
          else o) := by
    unfold update_trailing_stop_loss
    simp only [hp, hc]
  constructor
  · intro hact
    rw [hu]
    rw [List.map_congr_left (fun o _ => ?_)]
    · exact List.map_id' t.open_orders
    · obtain ⟨os, ot, op⟩ := o
      by_cases ho : ot = OrderType.STOP_LOSS
      · subst ho
        simp [new_sl_price_of_inactive tcfg t.symbol_info pos price op hact]
      · simp [ho]
  · rw [hu]
    rw [List.forall₂_map_right_iff]
    rw [List.forall₂_same]
    intro o _
    by_cases ho : o.type = OrderType.STOP_LOSS
    · refine ⟨by simp [ho], by simp [ho], fun _ => ⟨?_, ?_⟩, fun htp => ?_⟩
      · intro hlong
        simpa [ho] using new_sl_price_mono_long tcfg t.symbol_info pos price o.price hlong
      · intro hshort
        simpa [ho] using new_sl_price_mono_short tcfg t.symbol_info pos price o.price hshort
      · rw [ho] at htp
        cases htp
    · simp [ho]

/-- C6: `can_trade` returns false whenever the daily trade limit is
reached, the current spread exceeds the configured maximum, the current
weekday/hour is outside the configured trading schedule, or the trader is
dead; and in every state where `can_trade` is false the driver takes no
open/close action: `trade` returns the hold action `0` with the state
unchanged and the driver's decision phase is a no-op. -/
theorem claim_C6_can_trade_gate (t : Trader) (decisions : List ℚ) (price : ℚ) :
    ((∃ m, t.config.strategy.maximum_trades_per_day = some m
        ∧ m ≤ (t.nb_trades_today : ℤ)) → can_trade t = false)
    ∧ ((∃ ms, t.config.strategy.maximum_spread = some ms
        ∧ ms < t.current_spread) → can_trade t = false)
    ∧ ((∃ s, t.config.strategy.trading_schedule = some s
        ∧ schedule_allows s (tm_wday t.current_date) (tm_hour t.current_date) = false)
        → can_trade t = false)
    ∧ (t.dead = true → can_trade t = false)
    ∧ (can_trade t = false →
        trade decisions price t = (0, t)
        ∧ ∀ inp : StepInput, decision_phase inp t = t) := by
  refine ⟨?_, ?_, ?_, fun h => can_trade_false_of_dead t h, ?_⟩
  · rintro ⟨m, hm, hle⟩
    unfold can_trade
    simp [hm, hle]
  · rintro ⟨ms, hm, hlt⟩
    unfold can_trade
    simp [hm, hlt]
  · rintro ⟨s, hs, hfalse⟩
    unfold can_trade in_schedule
    simp [hs, hfalse]
  · intro h
    constructor
    · unfold trade
      rw [if_pos h]
    · intro inp
      unfold decision_phase
      rw [if_neg]
      rintro ⟨-, hct⟩
      rw [h] at hct
      cases hct

theorem run_balance_history_length (t : Trader) (inputs : List StepInput) :
    (run t inputs).balance_history.length = t.balance_history.length + inputs.length := by
  induction inputs generalizing t with
  | nil => rfl
  | cons i is ih =>
    rw [run_cons, ih, step_balance_history]
    simp
    omega

theorem run_balance_history_last (t : Trader) (inputs : List StepInput)
    (h : inputs ≠ []) :
    (run t inputs).balance_history.getLast? = some (run t inputs).balance := by
  induction inputs generalizing t with
  | nil => cases h rfl
  | cons i is ih =>
    rw [run_cons]
    cases is with
    | nil =>
      show (step i t).balance_history.getLast? = some (step i t).balance
      rw [step_balance_history]
      exact getLast?_append_singleton _ _
    | cons j js => exact ih (step i t) (by simp)

/-- C3: for any sequence of simulation steps starting from a fresh balance
history, after each step the length of `balance_history` equals the number
of steps processed (one sample per step), and after the final step the
last sample equals the current balance. -/
theorem claim_C3_balance_history (t : Trader) (inputs : List StepInput)
    (h : t.balance_history = []) :
    (run t inputs).balance_history.length = inputs.length
    ∧ (∀ pre post : List StepInput, inputs = pre ++ post →
        (run t pre).balance_history.length = pre.length)
    ∧ (inputs ≠ [] →
        (run t inputs).balance_history.getLast? = some (run t inputs).balance) := by
  refine ⟨?_, ?_, fun hne => run_balance_history_last t inputs hne⟩
  · rw [run_balance_history_length, h]
    simp
  · intro pre post _
    rw [run_balance_history_length, h]
    simp

/-- C8: the `dead` flag is a one-way transition: once `dead` is true it
stays true across any further sequence of simulation steps, and from that
point the driver never again invokes the decision function — the decision
invocation counter is unchanged over the whole remaining run. -/
theorem claim_C8_dead_one_way (t : Trader) (inputs : List StepInput)
    (h : t.dead = true) :
    (run t inputs).dead = true ∧ (run t inputs).genome_calls = t.genome_calls := by
  induction inputs generalizing t with
  | nil => exact ⟨h, rfl⟩
  | cons i is ih =>
    rw [run_cons]
    obtain ⟨h1, h2⟩ := ih (step i t) (step_dead_of_dead i t h)
    exact ⟨h1, by rw [h2, step_genome_calls_of_dead i t h]⟩

theorem true_ranges_length_le (candles : List Candle) :
    (true_ranges candles).length ≤ candles.length := by
  unfold true_ranges
  cases candles with
  | nil => simp
  | cons c rest => simp

theorem lookback_window_of_ge (candles : List Candle) (p : ℕ)
    (h : candles.length ≤ p) : lookback_window candles p = candles := by
  unfold lookback_window
  rw [min_eq_right h, Nat.sub_self, List.drop_zero]

theorem atr_of_ge (candles : List Candle) (p : ℕ) (h : candles.length ≤ p) :
    atr candles p = atr candles candles.length := by
  unfold atr
  have h1 : (true_ranges candles).length ≤ p :=
    le_trans (true_ranges_length_le candles) h
  have h2 : (true_ranges candles).length ≤ candles.length :=
    true_ranges_length_le candles
  dsimp only
  rw [min_eq_right h1, min_eq_right h2]

/-- C7: when a configured EXTREMUM lookback or ATR period exceeds the
available candle history, the (total, non-throwing) risk-engine
computation — the stop-loss one and the take-profit one alike — returns
the value computed over the maximum available window (it equals the
computation with the period clipped to the history length), flagged as
provisional, and the caller-side rule application does not trigger on the
provisional result. -/
theorem claim_C7_insufficient_history
    (cfg : TakeProfitStopLossConfig) (si : SymbolInfo) (side : PositionSide)
    (entry : ℚ) (candles : List Candle) (n : ℤ) (high low : ℚ) :
    (cfg.type_stop_loss = TypeTakeProfitStopLoss.EXTREMUM →
      cfg.stop_loss_extremum_period = some n → (candles.length : ℤ) < n →
      (calculate_stop_loss cfg si side entry candles).2 = true
      ∧ (calculate_stop_loss cfg si side entry candles).1
          = (calculate_stop_loss
              { cfg with stop_loss_extremum_period := some (candles.length : ℤ) }
              si side entry candles).1
      ∧ stop_rule_triggers cfg si side entry candles high low = false)
    ∧ (cfg.type_stop_loss = TypeTakeProfitStopLoss.ATR →
      cfg.stop_loss_atr_period = some n → (candles.length : ℤ) < n →
      (calculate_stop_loss cfg si side entry candles).2 = true
      ∧ (calculate_stop_loss cfg si side entry candles).1
          = (calculate_stop_loss
              { cfg with stop_loss_atr_period := some (candles.length : ℤ) }
              si side entry candles).1
      ∧ stop_rule_triggers cfg si side entry candles high low = false)
    ∧ (cfg.type_take_profit = TypeTakeProfitStopLoss.EXTREMUM →
      cfg.take_profit_extremum_period = some n → (candles.length : ℤ) < n →
      (calculate_take_profit cfg si side entry candles).2 = true
      ∧ (calculate_take_profit cfg si side entry candles).1
          = (calculate_take_profit
              { cfg with take_profit_extremum_period := some (candles.length : ℤ) }
              si side entry candles).1
      ∧ tp_rule_triggers cfg si side entry candles high low = false)
    ∧ (cfg.type_take_profit = TypeTakeProfitStopLoss.ATR →
      cfg.take_profit_atr_period = some n → (candles.length : ℤ) < n →
      (calculate_take_profit cfg si side entry candles).2 = true
      ∧ (calculate_take_profit cfg si side entry candles).1
          = (calculate_take_profit
              { cfg with take_profit_atr_period := some (candles.length : ℤ) }
              si side entry candles).1
      ∧ tp_rule_triggers cfg si side entry candles high low = false) := by
  refine ⟨?_, ?_, ?_, ?_⟩
  · intro h1 h2 h3
    have hlen : candles.length ≤ n.toNat := by omega
    have hwin : lookback_window candles n.toNat = candles :=
      lookback_window_of_ge candles n.toNat hlen
    have hwin2 : lookback_window candles (candles.length : ℤ).toNat = candles :=
      lookback_window_of_ge candles _ (by simp)
    have hprov : (calculate_stop_loss cfg si side entry candles).2 = true := by
      unfold calculate_stop_loss
      simp only [h1, h2, Option.getD_some, hwin]
      cases candles with
      | nil => rfl
      | cons c rest =>
        simp only [decide_eq_true_eq]
        exact h3
    refine ⟨hprov, ?_, ?_⟩
    · unfold calculate_stop_loss
      simp only [h1, h2, Option.getD_some, hwin, hwin2]
      cases candles <;> rfl
    · unfold stop_rule_triggers
      dsimp only
      rw [hprov]
      rfl
  · intro h1 h2 h3
    have hlen : candles.length ≤ n.toNat := by omega
    have hprov : (calculate_stop_loss cfg si side entry candles).2 = true := by
      unfold calculate_stop_loss
      simp only [h1, h2, Option.getD_some]
      simp [h3, decide_eq_true_eq]
    refine ⟨hprov, ?_, ?_⟩
    · unfold calculate_stop_loss
      simp only [h1, h2, Option.getD_some]
      rw [atr_of_ge candles n.toNat hlen,
        atr_of_ge candles (candles.length : ℤ).toNat (by simp)]
    · unfold stop_rule_triggers
      dsimp only
      rw [hprov]
      rfl
  · intro h1 h2 h3
    have hlen : candles.length ≤ n.toNat := by omega
    have hwin : lookback_window candles n.toNat = candles :=
      lookback_window_of_ge candles n.toNat hlen
    have hwin2 : lookback_window candles (candles.length : ℤ).toNat = candles :=
      lookback_window_of_ge candles _ (by simp)
    have hprov : (calculate_take_profit cfg si side entry candles).2 = true := by
      unfold calculate_take_profit
      simp only [h1, h2, Option.getD_some, hwin]
      cases candles with
      | nil => rfl
      | cons c rest =>
        simp only [decide_eq_true_eq]
        exact h3
    refine ⟨hprov, ?_, ?_⟩
    · unfold calculate_take_profit
      simp only [h1, h2, Option.getD_some, hwin, hwin2]
      cases candles <;> rfl
    · unfold tp_rule_triggers
      dsimp only
      rw [hprov]
      rfl
  · intro h1 h2 h3
    have hlen : candles.length ≤ n.toNat := by omega
    have hprov : (calculate_take_profit cfg si side entry candles).2 = true := by
      unfold calculate_take_profit
      simp only [h1, h2, Option.getD_some]
      simp [h3, decide_eq_true_eq]
    refine ⟨hprov, ?_, ?_⟩
    · unfold calculate_take_profit
      simp only [h1, h2, Option.getD_some]
      rw [atr_of_ge candles n.toNat hlen,
        atr_of_ge candles (candles.length : ℤ).toNat (by simp)]
    · unfold tp_rule_triggers
      dsimp only
      rw [hprov]
      rfl

theorem map_const_replicate (l : List Candle) :
    l.map (fun _ => (0 : ℚ)) = List.replicate l.length 0 := by
  induction l with
  | nil => rfl
  | cons a as ih => simp [ih, List.replicate]

/-- C9: `MarketSession::calculate` returns a vector of the same length as
the input; for any zone other than `london`, `new-york` and `tokyo` every
entry is `0.0` (an unrecognized zone silently marks no candle as
in-session); for a recognized zone an entry is `1.0` exactly when the
candle's hour lies in the zone's fixed inclusive range (london 8–12,
new-york 14–20, tokyo 2–8), and `0.0` otherwise. -/
theorem claim_C9_market_session (zone : String) (candles : List Candle) :
    (marketSession_calculate zone candles).length = candles.length
    ∧ (zone ≠ "london" → zone ≠ "new-york" → zone ≠ "tokyo" →
        marketSession_calculate zone candles = List.replicate candles.length 0)
    ∧ (zone = "london" →
        marketSession_calculate zone candles
          = candles.map (fun c =>
              if 8 ≤ tm_hour c.date ∧ tm_hour c.date ≤ 12 then (1 : ℚ) else 0))
    ∧ (zone = "new-york" →
        marketSession_calculate zone candles
          = candles.map (fun c =>
              if 14 ≤ tm_hour c.date ∧ tm_hour c.date ≤ 20 then (1 : ℚ) else 0))
    ∧ (zone = "tokyo" →
        marketSession_calculate zone candles
          = candles.map (fun c =>
              if 2 ≤ tm_hour c.date ∧ tm_hour c.date ≤ 8 then (1 : ℚ) else 0)) := by
  refine ⟨by simp [marketSession_calculate], ?_, ?_, ?_, ?_⟩
  · intro hl hn ht
    unfold marketSession_calculate
    rw [show (fun c : Candle => if in_market_session zone (tm_hour c.date) then (1:ℚ) else 0)
        = (fun _ : Candle => (0:ℚ)) from ?_]
    · exact map_const_replicate candles
    · funext c
      simp [in_market_session, hl, hn, ht]
  · intro hz
    subst hz
    unfold marketSession_calculate
    refine List.map_congr_left (fun c _ => ?_)
    by_cases h8 : 8 ≤ tm_hour c.date <;> by_cases h12 : tm_hour c.date ≤ 12 <;>
      simp [in_market_session, h8, h12]
  · intro hz
    subst hz
    unfold marketSession_calculate
    refine List.map_congr_left (fun c _ => ?_)
    by_cases h14 : 14 ≤ tm_hour c.date <;> by_cases h20 : tm_hour c.date ≤ 20 <;>
      simp [in_market_session, h14, h20]
  · intro hz
    subst hz
    unfold marketSession_calculate
    refine List.map_congr_left (fun c _ => ?_)
    by_cases h2 : 2 ≤ tm_hour c.date <;> by_cases h8 : tm_hour c.date ≤ 8 <;>
      simp [in_market_session, h2, h8]

/-- C10: `WeekDay::calculate` returns a vector of the same length as the
input whose entries are only `0.0` or `1.0`, with `1.0` exactly when the
candle date's weekday equals the configured day's index; the seven
recognized lowercase English day names map to 0..6 (sunday..saturday), and
any other day string is treated as `sunday` (index 0), not rejected. -/
theorem claim_C10_week_day (day : String) (candles : List Candle) :
    (weekDay_calculate day candles).length = candles.length
    ∧ (∀ x ∈ weekDay_calculate day candles, x = 0 ∨ x = 1)
    ∧ weekDay_calculate day candles
        = candles.map (fun c =>
            if tm_wday c.date = weekday_attempt_day day then (1 : ℚ) else 0)
    ∧ (weekday_attempt_day "sunday" = 0 ∧ weekday_attempt_day "monday" = 1
       ∧ weekday_attempt_day "tuesday" = 2 ∧ weekday_attempt_day "wednesday" = 3
       ∧ weekday_attempt_day "thursday" = 4 ∧ weekday_attempt_day "friday" = 5
       ∧ weekday_attempt_day "saturday" = 6)
    ∧ (day ≠ "sunday" → day ≠ "monday" → day ≠ "tuesday" → day ≠ "wednesday" →
       day ≠ "thursday" → day ≠ "friday" → day ≠ "saturday" →
        weekDay_calculate day candles = weekDay_calculate "sunday" candles) := by
  refine ⟨by simp [weekDay_calculate], ?_, rfl, by decide, ?_⟩
  · intro x hx
    unfold weekDay_calculate at hx
    obtain ⟨c, -, rfl⟩ := List.mem_map.mp hx
    by_cases h : tm_wday c.date = weekday_attempt_day day
    · right; simp [h]
    · left; simp [h]
  · intro h1 h2 h3 h4 h5 h6 h7
    unfold weekDay_calculate
    have : weekday_attempt_day day = weekday_attempt_day "sunday" := by
      unfold weekday_attempt_day
      simp [h1, h2, h3, h4, h5, h6, h7]
    rw [this]

/-- Example instance of C1: long at 100 with stop 95 and take-profit 110;
the bar 94–111 crosses both; the position closes at 95. -/
theorem claim_C1_witness :
    check_open_orders 111 94 demo_trader = close_position_by_market 95 demo_trader
    ∧ ∃ tr : Trade,
        (check_open_orders 111 94 demo_trader).trades_history
          = demo_trader.trades_history ++ [tr]
        ∧ tr.exit_price = 95
        ∧ (check_open_orders 111 94 demo_trader).current_position = none :=
  claim_C1_stop_loss_priority demo_trader demo_position
    { side := OrderSide.SHORT, type := OrderType.STOP_LOSS, price := 95 }
    { side := OrderSide.SHORT, type := OrderType.TAKE_PROFIT, price := 110 }
    111 94 rfl rfl rfl (by decide) (by decide)

/-- Example instance of C2: opening on the open demo trader is rejected;
closing clears the slot and appends one trade. -/
theorem claim_C2_witness :
    open_position_by_market 100 1 OrderSide.LONG demo_trader = demo_trader
    ∧ (close_position_by_market 95 demo_trader).current_position = none
    ∧ (close_position_by_market 95 demo_trader).trades_history.length
        = demo_trader.trades_history.length + 1 := by
  obtain ⟨h1, -⟩ := claim_C2_single_position_atomic demo_trader
  obtain ⟨ho, hc, -, -, -⟩ := h1 demo_position rfl
  exact ⟨ho 100 1 OrderSide.LONG, (hc 95).1, (hc 95).2⟩

/-- Example instance of C3: a one-step run records exactly one balance
sample, and the last sample is the final balance. -/
theorem claim_C3_witness :
    (run demo_trader [demo_input]).balance_history.length = 1
    ∧ (run demo_trader [demo_input]).balance_history.getLast?
        = some (run demo_trader [demo_input]).balance := by
  have h := claim_C3_balance_history demo_trader [demo_input] rfl
  exact ⟨h.1, h.2.2 (by simp)⟩

/-- Example instance of C4: a trailing update of the demo trader at price
104 never lowers the stored long stop. -/
theorem claim_C4_witness :
    List.Forall₂ (fun o o' : Order =>
        o'.side = o.side ∧ o'.type = o.type
        ∧ (o.type = OrderType.STOP_LOSS →
            (demo_position.side = PositionSide.LONG → o.price ≤ o'.price)
            ∧ (demo_position.side = PositionSide.SHORT → o'.price ≤ o.price))
        ∧ (o.type = OrderType.TAKE_PROFIT → o' = o))
      demo_trader.open_orders (update_trailing_stop_loss 104 demo_trader).open_orders :=
  (claim_C4_trailing_stop_monotone demo_trader 104 demo_position demo_trailing_cfg rfl rfl).2

/-- Example instance of C5: long 1 lot at 100 with leverage 10; the bar low
89 loses 11 ≥ 100/10, so the position is liquidated at 89 with a
non-positive trade PnL and `dead` untouched. -/
theorem claim_C5_witness :
    (check_position_liquidation 101 89 demo_trader).current_position = none
    ∧ (check_position_liquidation 101 89 demo_trader).open_orders = []
    ∧ (check_position_liquidation 101 89 demo_trader).dead = demo_trader.dead
    ∧ ∃ tr : Trade,
        (check_position_liquidation 101 89 demo_trader).trades_history
          = demo_trader.trades_history ++ [tr]
        ∧ tr.exit_price = liquidation_price demo_position.side 101 89
        ∧ tr.pnl ≤ 0 :=
  claim_C5_liquidation demo_trader demo_position 101 89 rfl
    (by norm_num [position_notional, demo_trader, demo_symbol, demo_position])
    (by norm_num [demo_trader, demo_config])
    (by norm_num [position_notional, position_pnl, liquidation_price,
      demo_trader, demo_symbol, demo_position, demo_config])

/-- Example instance of C6: with the daily limit (2) reached, `can_trade`
is false and `trade` holds. -/
theorem claim_C6_witness :
    can_trade demo_trader_limit = false
    ∧ trade [1, 0, 0] 100 demo_trader_limit = (0, demo_trader_limit) := by
  have h := claim_C6_can_trade_gate demo_trader_limit [1, 0, 0] 100
  have hf := h.1 ⟨2, rfl, by decide⟩
  exact ⟨hf, (h.2.2.2.2 hf).1⟩

/-- Example instance of C7: an EXTREMUM lookback of 5 over a single candle
is provisional, degrades to the available window, and does not trigger —
on the stop-loss side and on the take-profit side alike. -/
theorem claim_C7_witness :
    ((calculate_stop_loss demo_extremum_cfg demo_symbol PositionSide.LONG 100 [demo_candle]).2 = true
    ∧ (calculate_stop_loss demo_extremum_cfg demo_symbol PositionSide.LONG 100 [demo_candle]).1
        = (calculate_stop_loss
            { demo_extremum_cfg with stop_loss_extremum_period := some (([demo_candle].length : ℕ) : ℤ) }
            demo_symbol PositionSide.LONG 100 [demo_candle]).1
    ∧ stop_rule_triggers demo_extremum_cfg demo_symbol PositionSide.LONG 100 [demo_candle] 101 99 = false)
    ∧ ((calculate_take_profit demo_extremum_tp_cfg demo_symbol PositionSide.LONG 100 [demo_candle]).2 = true
    ∧ (calculate_take_profit demo_extremum_tp_cfg demo_symbol PositionSide.LONG 100 [demo_candle]).1
        = (calculate_take_profit
            { demo_extremum_tp_cfg with take_profit_extremum_period := some (([demo_candle].length : ℕ) : ℤ) }
            demo_symbol PositionSide.LONG 100 [demo_candle]).1
    ∧ tp_rule_triggers demo_extremum_tp_cfg demo_symbol PositionSide.LONG 100 [demo_candle] 101 99 = false) :=
  ⟨(claim_C7_insufficient_history demo_extremum_cfg demo_symbol PositionSide.LONG
      100 [demo_candle] 5 101 99).1 rfl rfl (by decide),
   (claim_C7_insufficient_history demo_extremum_tp_cfg demo_symbol PositionSide.LONG
      100 [demo_candle] 5 101 99).2.2.1 rfl rfl (by decide)⟩

/-- Example instance of C8: a dead trader stays dead over a step and never
invokes the decision function again. -/
theorem claim_C8_witness :
    (run demo_dead_trader [demo_input]).dead = true
    ∧ (run demo_dead_trader [demo_input]).genome_calls = demo_dead_trader.genome_calls :=
  claim_C8_dead_one_way demo_dead_trader [demo_input] rfl

/-- Example instance of C9: an unrecognized zone marks nothing in-session;
the london zone marks the 10:00 candle. -/
theorem claim_C9_witness :
    marketSession_calculate "paris" [demo_candle] = List.replicate 1 0
    ∧ marketSession_calculate "london" [demo_candle]
        = [demo_candle].map (fun c =>
            if 8 ≤ tm_hour c.date ∧ tm_hour c.date ≤ 12 then (1 : ℚ) else 0) := by
  have h := claim_C9_market_session "paris" [demo_candle]
  have h2 := claim_C9_market_session "london" [demo_candle]
  exact ⟨h.2.1 (by decide) (by decide) (by decide), h2.2.2.1 rfl⟩

/-- Example instance of C10: an unrecognized day string behaves exactly
like "sunday", and all entries are 0 or 1. -/
theorem claim_C10_witness :
    (∀ x ∈ weekDay_calculate "funday" [demo_candle], x = 0 ∨ x = 1)
    ∧ weekDay_calculate "funday" [demo_candle] = weekDay_calculate "sunday" [demo_candle] := by
  have h := claim_C10_week_day "funday" [demo_candle]
  exact ⟨h.2.1, h.2.2.2.2 (by decide) (by decide) (by decide) (by decide)
    (by decide) (by decide) (by decide)⟩

end RF
